import Mathlib

/-!
Verification of the rmrk-tools consolidation engine
(`src/tools/consolidator/consolidator.ts` and
`src/tools/consolidator/interactions/mint.ts`) against its
natural-language specification.

The engine replays an ordered log of remarks into collection/NFT state.
External collaborators (remark parsers, the crypto address codec, the
interaction validators and the in-memory storage adapter) are specified
by the document only at their interface boundary; their definitions
below are modelled from the spec and say so in their doc comments.
Everything else is translated directly from the TypeScript source.
-/

namespace Rmrk

/-- Modelled from the spec: an audit entry of an applied mutation
(`changes` lists carry mutation records with block numbers); the
`Change` class (`rmrk1.0.0/changelog`) is not part of the core source. -/
structure Change where
  field : String
  old : String
  new : String
  caller : String
  block : Nat
deriving DecidableEq, Repr

/-- `NFTConsolidated` from consolidator.ts. The `instance` field of the
source is named `nftInstance` (`instance` is a Lean keyword); the
`loadedMetadata` cache is outside the consolidation core per the spec. -/
structure NFTConsolidated where
  id : String
  block : Nat
  collection : String
  name : String
  nftInstance : String
  transferable : Int
  sn : String
  metadata : Option String
  data : Option String
  forsale : Int
  reactions : List (String × List String)
  changes : List Change
  owner : String
  burned : String
  updatedAtBlock : Option Nat
deriving DecidableEq, Repr

/-- `CollectionConsolidated` from consolidator.ts (without the
`loadedMetadata` cache, outside the consolidation core per the spec). -/
structure CollectionConsolidated where
  block : Nat
  name : String
  max : Nat
  issuer : String
  symbol : String
  id : String
  metadata : String
  changes : List Change
  updatedAtBlock : Option Nat
deriving DecidableEq, Repr

/-- Modelled from the spec: payload of a SEND remark (target id + new
owner); the `Send` entity class is not part of the core source. -/
structure SendEntity where
  id : String
  recipient : String
deriving DecidableEq, Repr

/-- Modelled from the spec: payload of a LIST remark (item id + price,
zero cancels); the `List` entity class is not part of the core source. -/
structure ListEntity where
  id : String
  price : Int
deriving DecidableEq, Repr

/-- Modelled from the spec: payload of a CONSUME remark (item id +
burn reason); the `Consume` entity class is not part of the core source. -/
structure ConsumeEntity where
  id : String
  reason : String
deriving DecidableEq, Repr

/-- Modelled from the spec: payload of a BUY remark (item id + offered
price); the `Buy` entity class is not part of the core source. -/
structure BuyEntity where
  id : String
  price : Int
deriving DecidableEq, Repr

/-- Modelled from the spec: payload of an EMOTE remark (item id +
reaction symbol); the `Emote` entity class is not part of the core source. -/
structure EmoteEntity where
  id : String
  unicode : String
deriving DecidableEq, Repr

/-- Modelled from the spec: payload of a CHANGEISSUER remark
(collection id + new issuer address). -/
structure ChangeIssuerEntity where
  id : String
  issuer : String
deriving DecidableEq, Repr

/-- Modelled from the spec: the parsers are external collaborators that
turn a raw remark string into a typed operation payload or a descriptive
failure.  The raw string is therefore embedded as the typed payload it
would parse to (or `malformed` carrying the raw text), and each parser
checks it receives the payload of its own operation kind. -/
inductive RemarkPayload where
  | malformed (text : String)
  | collectionPayload (c : CollectionConsolidated)
  | nftPayload (n : NFTConsolidated)
  | sendPayload (s : SendEntity)
  | listPayload (l : ListEntity)
  | consumePayload (c : ConsumeEntity)
  | buyPayload (b : BuyEntity)
  | emotePayload (e : EmoteEntity)
  | changeIssuerPayload (c : ChangeIssuerEntity)
deriving DecidableEq, Repr

/-- The raw remark text used to key a parse-failure invalid call; for a
structured payload the raw text plays no further role in the engine. -/
def RemarkPayload.rawText : RemarkPayload → String
  | .malformed t => t
  | _ => ""

/-- `Remark` (remark.ts interface boundary, spec section 3): block,
caller address, interaction type tag, raw payload. -/
structure Remark where
  block : Nat
  caller : String
  interaction_type : String
  remark : RemarkPayload
deriving DecidableEq, Repr

/-- `InvalidCall` from consolidator.ts. -/
structure InvalidCall where
  message : String
  caller : String
  block : Nat
  object_id : String
  op_type : String
deriving DecidableEq, Repr

/-- One entry of `InteractionChanges` (a pushed singleton record
mapping an operation kind to the affected entity id). -/
structure InteractionChange where
  op_type : String
  id : String
deriving DecidableEq, Repr

/-- `ConsolidatorReturnType` from consolidator.ts; the optional fields
are embedded as `Option` (`none` = field absent). -/
structure ConsolidatorReturnType where
  nfts : List NFTConsolidated
  collections : List CollectionConsolidated
  invalid : List InvalidCall
  changes : Option (List InteractionChange)
  lastBlock : Option Nat
deriving DecidableEq, Repr

/-- Modelled from the spec: the eight operation kinds of the `OP_TYPES`
string enum (constants.ts is not part of the core source). -/
def OP_TYPES.MINT : String := "MINT"

def OP_TYPES.MINTNFT : String := "MINTNFT"

def OP_TYPES.SEND : String := "SEND"

def OP_TYPES.BUY : String := "BUY"

def OP_TYPES.CONSUME : String := "CONSUME"

def OP_TYPES.LIST : String := "LIST"

def OP_TYPES.EMOTE : String := "EMOTE"

def OP_TYPES.CHANGEISSUER : String := "CHANGEISSUER"

/-- JavaScript `String.prototype.substr(start, length)` on the remark
id/pubkey strings (start and length clamp to the string bounds). -/
def jsSubstr (s : String) (start len : Nat) : String :=
  ((s.toList.drop start).take len).asString

/-- JavaScript `String.prototype.substring(start)` (start clamps to the
string bounds; `Nat` subtraction at call sites mirrors the clamping of a
negative start to zero). -/
def jsSubstringFrom (s : String) (start : Nat) : String :=
  (s.toList.drop start).asString

/-- Modelled from the spec: the map-backed contents of the default
in-memory storage adapter (the concrete backend is outside the core;
only the section 4.10 capability contract is specified). -/
structure AdapterStore where
  nfts : List NFTConsolidated
  collections : List CollectionConsolidated
deriving DecidableEq, Repr

/-- Modelled from the spec: a storage adapter is its current store plus
which of the optional bulk readers (`getAllNFTs` / `getAllCollections`)
the adapter object exposes. -/
structure AdapterState where
  store : AdapterStore
  hasGetAllNFTs : Bool
  hasGetAllCollections : Bool
deriving DecidableEq, Repr

/-- Modelled from the spec: `getCollectionById` of the adapter contract
on the map-backed default store. -/
def AdapterState.getCollectionById (a : AdapterState) (id : String) :
    Option CollectionConsolidated :=
  a.store.collections.find? (fun c => c.id == id)

/-- Modelled from the spec: `getNFTByIdUnique` of the adapter contract. -/
def AdapterState.getNFTByIdUnique (a : AdapterState) (id : String) :
    Option NFTConsolidated :=
  a.store.nfts.find? (fun n => n.id == id)

/-- Modelled from the spec: `getNFTById`, the non-unique lookup variant
used only by the emote handler; on the map-backed default store it
coincides with the unique lookup. -/
def AdapterState.getNFTById (a : AdapterState) (id : String) :
    Option NFTConsolidated :=
  a.store.nfts.find? (fun n => n.id == id)

/-- Replace the adapter store contents, keeping the adapter's
capability surface unchanged. -/
def AdapterState.withStore (a : AdapterState) (s : AdapterStore) : AdapterState :=
  { a with store := s }

/-- Modelled from the spec: `updateCollectionMint` durably records a
newly minted collection. -/
def AdapterState.updateCollectionMint (a : AdapterState)
    (c : CollectionConsolidated) : AdapterState :=
  a.withStore { a.store with collections := a.store.collections ++ [c] }

/-- Modelled from the spec: `updateNFTMint` durably records a newly
minted item, stamping `updatedAtBlock` with the triggering block. -/
def AdapterState.updateNFTMint (a : AdapterState) (n : NFTConsolidated)
    (block : Nat) : AdapterState :=
  a.withStore
    { a.store with nfts := a.store.nfts ++ [{ n with updatedAtBlock := some block }] }

/-- Modelled from the spec: commit a mutated item over its previous
consolidated snapshot, stamping `updatedAtBlock`. -/
def AdapterState.replaceNFT (a : AdapterState) (n old : NFTConsolidated)
    (block : Nat) : AdapterState :=
  a.withStore
    { a.store with
      nfts := a.store.nfts.map
        (fun m => if m.id == old.id then { n with updatedAtBlock := some block } else m) }

/-- Modelled from the spec: `updateNFTSend` of the adapter contract. -/
def AdapterState.updateNFTSend (a : AdapterState) (n old : NFTConsolidated)
    (block : Nat) : AdapterState :=
  a.replaceNFT n old block

/-- Modelled from the spec: `updateNFTList` of the adapter contract. -/
def AdapterState.updateNFTList (a : AdapterState) (n old : NFTConsolidated)
    (block : Nat) : AdapterState :=
  a.replaceNFT n old block

/-- Modelled from the spec: `updateNFTConsume` of the adapter contract. -/
def AdapterState.updateNFTConsume (a : AdapterState) (n old : NFTConsolidated)
    (block : Nat) : AdapterState :=
  a.replaceNFT n old block

/-- Modelled from the spec: `updateNFTBuy` of the adapter contract. -/
def AdapterState.updateNFTBuy (a : AdapterState) (n old : NFTConsolidated)
    (block : Nat) : AdapterState :=
  a.replaceNFT n old block

/-- Modelled from the spec: `updateNFTEmote` of the adapter contract. -/
def AdapterState.updateNFTEmote (a : AdapterState) (n old : NFTConsolidated)
    (block : Nat) : AdapterState :=
  a.replaceNFT n old block

/-- Modelled from the spec: `updateCollectionIssuer` commits a
collection whose issuer changed, stamping `updatedAtBlock`. -/
def AdapterState.updateCollectionIssuer (a : AdapterState)
    (c old : CollectionConsolidated) (block : Nat) : AdapterState :=
  a.withStore
    { a.store with
      collections := a.store.collections.map
        (fun d => if d.id == old.id then { c with updatedAtBlock := some block } else d) }

/-- Modelled from the spec: a fresh default `InMemoryAdapter` — empty
map-backed store, both bulk readers available. -/
def inMemoryAdapter : AdapterState :=
  { store := { nfts := [], collections := [] }
    hasGetAllNFTs := true
    hasGetAllCollections := true }

/-- Modelled from the spec: the external crypto codec `decodeAddress`
is specified only at its boundary (caller address to public key); an
address is embedded as the value it decodes to. -/
def decodeAddress (caller : String) : String :=
  caller

/-- Modelled from the spec: `u8aToHex` renders the decoded public key
as its `0x`-prefixed hex string; composed with `decodeAddress` above, a
caller address is embedded directly as that hex string. -/
def u8aToHex (pubkey : String) : String :=
  pubkey

/-- Modelled from the spec: `Collection.generateId` derives the
deterministic collection id from the issuer public key hex and symbol;
the id embeds the leading hex fragment of the pubkey at its start and
the trailing 8 hex characters at its end (collection.ts is not part of
the core source). -/
def Collection.generateId (pubkey symbol : String) : String :=
  jsSubstr pubkey 2 8 ++ "-" ++ symbol ++ "-" ++ jsSubstringFrom pubkey (pubkey.length - 8)

/-- Modelled from the spec: the external MINT parser
`Collection.fromRemark(remark, block)` yields the typed collection
candidate at the given block, or a descriptive failure. -/
def Collection.fromRemark (p : RemarkPayload) (block : Nat) :
    Except String CollectionConsolidated :=
  match p with
  | .collectionPayload c => .ok { c with block := block }
  | .malformed t => .error t
  | _ => .error "Remark is not a MINT remark"

/-- Modelled from the spec: the external MINTNFT parser
`NFT.fromRemark(remark, block)` (a union return in the source: either
the typed item or an error string). -/
def NFT.fromRemark (p : RemarkPayload) (block : Nat) :
    Except String NFTConsolidated :=
  match p with
  | .nftPayload n => .ok { n with block := block }
  | .malformed t => .error t
  | _ => .error "Remark is not a MINTNFT remark"

/-- Modelled from the spec: the instance id of a minted item is the
deterministic identifier computed at parse time and carried in `id`. -/
def NFTConsolidated.getId (n : NFTConsolidated) : String :=
  n.id

/-- Modelled from the spec: the external SEND parser `Send.fromRemark`. -/
def Send.fromRemark (p : RemarkPayload) : Except String SendEntity :=
  match p with
  | .sendPayload s => .ok s
  | .malformed t => .error t
  | _ => .error "Remark is not a SEND remark"

/-- Modelled from the spec: the external LIST parser. -/
def ListEntity.fromRemark (p : RemarkPayload) : Except String ListEntity :=
  match p with
  | .listPayload l => .ok l
  | .malformed t => .error t
  | _ => .error "Remark is not a LIST remark"

/-- Modelled from the spec: the external CONSUME parser. -/
def Consume.fromRemark (p : RemarkPayload) : Except String ConsumeEntity :=
  match p with
  | .consumePayload c => .ok c
  | .malformed t => .error t
  | _ => .error "Remark is not a CONSUME remark"

/-- Modelled from the spec: the external BUY parser. -/
def Buy.fromRemark (p : RemarkPayload) : Except String BuyEntity :=
  match p with
  | .buyPayload b => .ok b
  | .malformed t => .error t
  | _ => .error "Remark is not a BUY remark"

/-- Modelled from the spec: the external EMOTE parser. -/
def Emote.fromRemark (p : RemarkPayload) : Except String EmoteEntity :=
  match p with
  | .emotePayload e => .ok e
  | .malformed t => .error t
  | _ => .error "Remark is not an EMOTE remark"

/-- Modelled from the spec: `getChangeIssuerEntity`
(interactions/changeIssuer.ts, not under the core source) parses a
reassignment request or throws a parse failure. -/
def getChangeIssuerEntity (remark : Remark) : Except String ChangeIssuerEntity :=
  match remark.remark with
  | .changeIssuerPayload c => .ok c
  | .malformed t =>
      .error ("[" ++ OP_TYPES.CHANGEISSUER ++ "] Dead before instantiation: " ++ t)
  | _ =>
      .error ("[" ++ OP_TYPES.CHANGEISSUER ++ "] Dead before instantiation")

/-- `getCollectionFromRemark` from interactions/mint.ts: run the
external collection parser and turn its failure into a thrown
dead-before-instantiation error. -/
def getCollectionFromRemark (remark : Remark) : Except String CollectionConsolidated :=
  match Collection.fromRemark remark.remark remark.block with
  | .error s => .error ("[" ++ OP_TYPES.MINT ++ "] Dead before instantiation: " ++ s)
  | .ok collection => .ok collection

/-- `validateMintIds` from interactions/mint.ts, translated literally:
it decodes the caller into `pubkeyString`, regenerates the id from that
pubkey and the collection symbol, compares `id.substr(0, 8)` with
`pubkeyString.substr(2, 8)` and `id.substring(pubkeyString.length - 8)`
with `pubkeyString.substring(pubkeyString.length - 8)`, and throws — as
in the source — exactly when BOTH comparisons succeed. -/
def validateMintIds (collection : CollectionConsolidated) (remark : Remark) :
    Except String Unit :=
  let pubkeyString := u8aToHex (decodeAddress remark.caller)
  let pubkeyStart := jsSubstr pubkeyString 2 8
  let pubkeyEnd := jsSubstringFrom pubkeyString (pubkeyString.length - 8)
  let id := Collection.generateId (u8aToHex (decodeAddress remark.caller)) collection.symbol
  let idStart := jsSubstr id 0 8
  let idEnd := jsSubstringFrom id (pubkeyString.length - 8)
  if idStart = pubkeyStart ∧ idEnd = pubkeyEnd then
    .error ("Caller\x27s pubkey " ++ pubkeyString ++ " (" ++ id ++
      ") does not match generated ID")
  else
    .ok ()

/-- Decimal parsing of a serial-number string (serials are zero-padded
decimals in the protocol); structural recursion only, so concrete
inputs evaluate definitionally. -/
def snToNat? (s : String) : Option Nat :=
  if s.toList.isEmpty then none
  else if s.toList.all (fun ch => ch.isDigit) then
    some (s.toList.foldl (fun acc ch => acc * 10 + (ch.toNat - 48)) 0)
  else none

/-- Modelled from the spec: `validateMintNFT`
(interactions/mintNFT.ts, not under the core source) — the owning
collection must exist, the caller must be its current issuer, the item
count must not exceed the collection's `max` when nonzero, and the
candidate's serial number must be the next unused one for that
collection.  The source call site hands the validator the remark, the
candidate and the collection instance; the collection's current item
count and serials live in the store, so the embedding passes the
adapter's current item list as an explicit further argument. -/
def validateMintNFT (remark : Remark) (nft : NFTConsolidated)
    (collection : Option CollectionConsolidated)
    (existingNFTs : List NFTConsolidated) : Except String Unit :=
  match collection with
  | none =>
      .error ("[" ++ OP_TYPES.MINTNFT ++ "] Attempted to mint into non-existing collection " ++
        nft.collection)
  | some c =>
      if remark.caller ≠ c.issuer then
        .error ("[" ++ OP_TYPES.MINTNFT ++ "] Attempted to mint into collection " ++
          c.id ++ " by non-issuer " ++ remark.caller)
      else
        let existingInCollection :=
          existingNFTs.filter (fun m => m.collection == nft.collection)
        if c.max ≠ 0 ∧ c.max ≤ existingInCollection.length then
          .error ("[" ++ OP_TYPES.MINTNFT ++ "] Attempted to mint into full collection " ++
            c.id)
        else if snToNat? nft.sn ≠ some (existingInCollection.length + 1) then
          .error ("[" ++ OP_TYPES.MINTNFT ++ "] Attempted to mint with serial number " ++
            nft.sn ++ " that is not the next unused one in collection " ++ c.id)
        else
          .ok ()

/-- Modelled from the spec: `sendInteraction` (interactions/send.ts) —
the item must exist, must not be burned and the caller must be its
current owner; on success the owner becomes the recipient, any active
listing is cleared and an audit entry is appended.  The source mutates
the instance in place; here the updated instance is returned. -/
def sendInteraction (remark : Remark) (send : SendEntity)
    (nft : Option NFTConsolidated) : Except String NFTConsolidated :=
  match nft with
  | none =>
      .error ("[" ++ OP_TYPES.SEND ++ "] Attempting to send non-existant NFT " ++ send.id)
  | some n =>
      if n.burned ≠ "" then
        .error ("[" ++ OP_TYPES.SEND ++ "] Attempting to send burned NFT " ++ send.id)
      else if n.owner ≠ remark.caller then
        .error ("[" ++ OP_TYPES.SEND ++ "] Attempting to send non-owned NFT " ++ send.id)
      else
        .ok { n with
          owner := send.recipient
          forsale := 0
          changes := n.changes ++
            [{ field := "owner", old := n.owner, new := send.recipient,
               caller := remark.caller, block := remark.block }] }

/-- Modelled from the spec: `listForSaleInteraction`
(interactions/list.ts) — the item must exist, must not be burned and
the caller must be its owner; on success `forsale` becomes the
requested price (zero cancels) and an audit entry is appended. -/
def listForSaleInteraction (remark : Remark) (list : ListEntity)
    (nft : Option NFTConsolidated) : Except String NFTConsolidated :=
  match nft with
  | none =>
      .error ("[" ++ OP_TYPES.LIST ++ "] Attempting to list non-existant NFT " ++ list.id)
  | some n =>
      if n.burned ≠ "" then
        .error ("[" ++ OP_TYPES.LIST ++ "] Attempting to list burned NFT " ++ list.id)
      else if n.owner ≠ remark.caller then
        .error ("[" ++ OP_TYPES.LIST ++ "] Attempting to list non-owned NFT " ++ list.id)
      else
        .ok { n with
          forsale := list.price
          changes := n.changes ++
            [{ field := "forsale", old := toString n.forsale, new := toString list.price,
               caller := remark.caller, block := remark.block }] }

/-- Modelled from the spec: `consumeInteraction`
(interactions/consume.ts) — the item must exist, must not already be
burned and the caller must be its owner; on success `burned` is set to
the given reason (terminal) and an audit entry is appended. -/
def consumeInteraction (remark : Remark) (consume : ConsumeEntity)
    (nft : Option NFTConsolidated) : Except String NFTConsolidated :=
  match nft with
  | none =>
      .error ("[" ++ OP_TYPES.CONSUME ++ "] Attempting to burn non-existant NFT " ++
        consume.id)
  | some n =>
      if n.burned ≠ "" then
        .error ("[" ++ OP_TYPES.CONSUME ++ "] Attempting to burn already burned NFT " ++
          consume.id)
      else if n.owner ≠ remark.caller then
        .error ("[" ++ OP_TYPES.CONSUME ++ "] Attempting to burn non-owned NFT " ++
          consume.id)
      else
        .ok { n with
          burned := consume.reason
          changes := n.changes ++
            [{ field := "burned", old := "", new := consume.reason,
               caller := remark.caller, block := remark.block }] }

/-- Modelled from the spec: `buyInteraction` (interactions/buy.ts) —
the item must exist, must not be burned, must currently be listed
(`forsale` greater than zero) and the offered price must satisfy the
listing; on success ownership transfers to the buyer and `forsale`
resets to zero.  The ss58 network parameter belongs to the external
address-validation codec and does not alter the consolidated state. -/
def buyInteraction (remark : Remark) (buy : BuyEntity)
    (nft : Option NFTConsolidated) (ss58Format : Option Nat) :
    Except String NFTConsolidated :=
  match nft with
  | none =>
      .error ("[" ++ OP_TYPES.BUY ++ "] Attempting to buy non-existant NFT " ++ buy.id)
  | some n =>
      if n.burned ≠ "" then
        .error ("[" ++ OP_TYPES.BUY ++ "] Attempting to buy burned NFT " ++ buy.id)
      else if ¬ (0 < n.forsale) then
        .error ("[" ++ OP_TYPES.BUY ++ "] Attempting to buy not-listed NFT " ++ buy.id)
      else if buy.price < n.forsale then
        .error ("[" ++ OP_TYPES.BUY ++ "] Attempting to buy NFT " ++ buy.id ++
          " for less than the listed price")
      else
        .ok { n with
          owner := remark.caller
          forsale := 0
          changes := n.changes ++
            [{ field := "owner", old := n.owner, new := remark.caller,
               caller := remark.caller, block := remark.block }] }

/-- Toggle the caller's membership in the address set of one reaction
symbol of a reaction map. -/
def toggleReaction (reactions : List (String × List String))
    (unicode caller : String) : List (String × List String) :=
  match reactions.find? (fun r => r.1 == unicode) with
  | none => reactions ++ [(unicode, [caller])]
  | some r =>
      let addrs := if caller ∈ r.2 then r.2.erase caller else r.2 ++ [caller]
      reactions.map (fun q => if q.1 == unicode then (q.1, addrs) else q)

/-- Modelled from the spec: `emoteInteraction` (interactions/emote.ts)
— the item must exist (burned items may still be emoted on, reactions
being non-destructive); on success the caller's membership in the
reaction symbol's address set is toggled, and when emission of raw
emote changes is enabled the mutation is also appended to the item's
audit list. -/
def emoteInteraction (remark : Remark) (emote : EmoteEntity)
    (nft : Option NFTConsolidated) (emitEmoteChanges : Bool) :
    Except String NFTConsolidated :=
  match nft with
  | none =>
      .error ("[" ++ OP_TYPES.EMOTE ++ "] Attempting to emote on non-existant NFT " ++
        emote.id)
  | some n =>
      let n2 := { n with reactions := toggleReaction n.reactions emote.unicode remark.caller }
      if emitEmoteChanges then
        .ok { n2 with
          changes := n2.changes ++
            [{ field := "reactions", old := "", new := emote.unicode,
               caller := remark.caller, block := remark.block }] }
      else
        .ok n2

/-- Modelled from the spec: `changeIssuerInteraction`
(interactions/changeIssuer.ts) — the collection must exist and the
caller must be its current issuer; on success the issuer field updates
and an audit entry is appended. -/
def changeIssuerInteraction (remark : Remark) (entity : ChangeIssuerEntity)
    (collection : Option CollectionConsolidated) :
    Except String CollectionConsolidated :=
  match collection with
  | none =>
      .error ("[" ++ OP_TYPES.CHANGEISSUER ++
        "] Attempting to change issuer of non-existant collection " ++ entity.id)
  | some c =>
      if c.issuer ≠ remark.caller then
        .error ("[" ++ OP_TYPES.CHANGEISSUER ++
          "] Attempting to change issuer of collection " ++ entity.id ++
          " when not issuer")
      else
        .ok { c with
          issuer := entity.issuer
          changes := c.changes ++
            [{ field := "issuer", old := c.issuer, new := entity.issuer,
               caller := remark.caller, block := remark.block }] }

/-- Modelled from the spec: `consolidatedNFTtoInstance` (utils.ts, not
under the core source) converts the consolidated form into the
in-memory instance; the two forms share their consolidation-relevant
fields, so the conversion is field-preserving. -/
def consolidatedNFTtoInstance (n : Option NFTConsolidated) : Option NFTConsolidated :=
  n

/-- Modelled from the spec: `consolidatedCollectionToInstance`
(utils.ts), field-preserving as above. -/
def consolidatedCollectionToInstance (c : Option CollectionConsolidated) :
    Option CollectionConsolidated :=
  c

/-- The instance state of a `Consolidator` (consolidator.ts): the
configuration fixed by the constructor, the invalid-call ledger, the
instance-local collection/NFT caches, the interaction-change log and
the storage adapter the engine writes through. -/
structure ConsolidatorState where
  ss58Format : Option Nat
  emitEmoteChanges : Bool
  emitInteractionChanges : Bool
  invalidCalls : List InvalidCall
  collections : List CollectionConsolidated
  nfts : List NFTConsolidated
  interactionChanges : List InteractionChange
  dbAdapter : AdapterState
deriving DecidableEq, Repr

namespace Consolidator

/-- The `Consolidator` constructor: JavaScript `||` defaulting for the
flags and the adapter, truthiness (so a zero ss58Format stays unset),
empty ledger and caches. -/
def construct (ss58Format : Option Nat) (dbAdapter : Option AdapterState)
    (emitEmoteChanges emitInteractionChanges : Option Bool) : ConsolidatorState :=
  { ss58Format :=
      match ss58Format with
      | some n => if n = 0 then none else some n
      | none => none
    emitEmoteChanges := emitEmoteChanges.getD false
    emitInteractionChanges := emitInteractionChanges.getD false
    invalidCalls := []
    collections := []
    nfts := []
    interactionChanges := []
    dbAdapter := dbAdapter.getD inMemoryAdapter }

/-- `updateInvalidCalls`: push one rejected-attempt record built from
the operation kind, the triggering remark and the given target id and
message onto the instance's invalid-call ledger. -/
def invalidate (st : ConsolidatorState) (op_type : String) (remark : Remark)
    (object_id message : String) : ConsolidatorState :=
  { st with
    invalidCalls := st.invalidCalls ++
      [{ message := message, caller := remark.caller, block := remark.block,
         object_id := object_id, op_type := op_type }] }

/-- Push one interaction-change record. -/
def pushInteractionChange (st : ConsolidatorState) (op_type id : String) :
    ConsolidatorState :=
  { st with interactionChanges := st.interactionChanges ++ [{ op_type := op_type, id := id }] }

/-- `Consolidator.mint` — the MINT (create collection) handler.  The
returned boolean is the handler's return value (`true` from every
rejection path, `false` after success). -/
def mint (st : ConsolidatorState) (remark : Remark) : Bool × ConsolidatorState :=
  match getCollectionFromRemark remark with
  | .error e => (true, invalidate st OP_TYPES.MINT remark remark.remark.rawText e)
  | .ok collection =>
    match st.dbAdapter.getCollectionById collection.id with
    | some _ =>
        (true, invalidate st OP_TYPES.MINT remark collection.id
          ("[" ++ OP_TYPES.MINT ++ "] Attempt to mint already existing collection"))
    | none =>
      match validateMintIds collection remark with
      | .error e => (true, invalidate st OP_TYPES.MINT remark collection.id e)
      | .ok _ =>
        let st1 := { st with
          dbAdapter := st.dbAdapter.updateCollectionMint collection
          collections := st.collections ++ [collection] }
        let st2 :=
          if st1.emitInteractionChanges then
            pushInteractionChange st1 OP_TYPES.MINT collection.id
          else st1
        (false, st2)

/-- `Consolidator.mintNFT` — the MINTNFT (mint item) handler. -/
def mintNFT (st : ConsolidatorState) (remark : Remark) : Bool × ConsolidatorState :=
  match NFT.fromRemark remark.remark remark.block with
  | .error e =>
      (true, invalidate st OP_TYPES.MINTNFT remark remark.remark.rawText
        ("[" ++ OP_TYPES.MINTNFT ++ "] Dead before instantiation: " ++ e))
  | .ok nft =>
    match st.dbAdapter.getNFTByIdUnique nft.getId with
    | some _ =>
        (true, invalidate st OP_TYPES.MINTNFT remark nft.getId
          ("[" ++ OP_TYPES.MINTNFT ++ "] Attempt to mint already existing NFT"))
    | none =>
      let collection :=
        consolidatedCollectionToInstance (st.dbAdapter.getCollectionById nft.collection)
      match validateMintNFT remark nft collection st.dbAdapter.store.nfts with
      | .error e => (true, invalidate st OP_TYPES.MINTNFT remark nft.getId e)
      | .ok _ =>
        let st1 := { st with
          dbAdapter := st.dbAdapter.updateNFTMint nft remark.block
          nfts := st.nfts ++ [nft] }
        let st2 :=
          if st1.emitInteractionChanges then
            pushInteractionChange st1 OP_TYPES.MINTNFT nft.getId
          else st1
        (false, st2)

/-- `Consolidator.send` — the SEND (transfer) handler. -/
def send (st : ConsolidatorState) (remark : Remark) : Bool × ConsolidatorState :=
  match Send.fromRemark remark.remark with
  | .error e =>
      (true, invalidate st OP_TYPES.SEND remark remark.remark.rawText
        ("[" ++ OP_TYPES.SEND ++ "] Dead before instantiation: " ++ e))
  | .ok sendEntity =>
    let consolidatedNFT := st.dbAdapter.getNFTByIdUnique sendEntity.id
    let nft := consolidatedNFTtoInstance consolidatedNFT
    match sendInteraction remark sendEntity nft with
    | .error e => (true, invalidate st OP_TYPES.SEND remark sendEntity.id e)
    | .ok updated =>
      match nft, consolidatedNFT with
      | some _, some old =>
        let st1 := { st with dbAdapter := st.dbAdapter.updateNFTSend updated old remark.block }
        let st2 :=
          if st1.emitInteractionChanges then
            pushInteractionChange st1 OP_TYPES.SEND updated.getId
          else st1
        (false, st2)
      | _, _ => (false, st)

/-- `Consolidator.list` — the LIST handler; note that it returns `true`
("continue") on its success path as well. -/
def list (st : ConsolidatorState) (remark : Remark) : Bool × ConsolidatorState :=
  match ListEntity.fromRemark remark.remark with
  | .error e =>
      (true, invalidate st OP_TYPES.LIST remark remark.remark.rawText
        ("[" ++ OP_TYPES.LIST ++ "] Dead before instantiation: " ++ e))
  | .ok listEntity =>
    let consolidatedNFT := st.dbAdapter.getNFTByIdUnique listEntity.id
    let nft := consolidatedNFTtoInstance consolidatedNFT
    match listForSaleInteraction remark listEntity nft with
    | .error e => (true, invalidate st OP_TYPES.LIST remark listEntity.id e)
    | .ok updated =>
      match nft, consolidatedNFT with
      | some _, some old =>
        let st1 := { st with dbAdapter := st.dbAdapter.updateNFTList updated old remark.block }
        let st2 :=
          if st1.emitInteractionChanges then
            pushInteractionChange st1 OP_TYPES.LIST updated.getId
          else st1
        (true, st2)
      | _, _ => (true, st)

/-- `Consolidator.consume` — the CONSUME (burn) handler; returns
`true` on its success path as well. -/
def consume (st : ConsolidatorState) (remark : Remark) : Bool × ConsolidatorState :=
  match Consume.fromRemark remark.remark with
  | .error e =>
      (true, invalidate st OP_TYPES.CONSUME remark remark.remark.rawText
        ("[" ++ OP_TYPES.CONSUME ++ "] Dead before instantiation: " ++ e))
  | .ok consumeEntity =>
    let consolidatedNFT := st.dbAdapter.getNFTByIdUnique consumeEntity.id
    let nft := consolidatedNFTtoInstance consolidatedNFT
    match consumeInteraction remark consumeEntity nft with
    | .error e => (true, invalidate st OP_TYPES.CONSUME remark consumeEntity.id e)
    | .ok updated =>
      match nft, consolidatedNFT with
      | some _, some old =>
        let st1 :=
          { st with dbAdapter := st.dbAdapter.updateNFTConsume updated old remark.block }
        let st2 :=
          if st1.emitInteractionChanges then
            pushInteractionChange st1 OP_TYPES.CONSUME updated.getId
          else st1
        (true, st2)
      | _, _ => (true, st)

/-- `Consolidator.buy` — the BUY handler; returns `true` on its
success path as well. -/
def buy (st : ConsolidatorState) (remark : Remark) : Bool × ConsolidatorState :=
  match Buy.fromRemark remark.remark with
  | .error e =>
      (true, invalidate st OP_TYPES.BUY remark remark.remark.rawText
        ("[" ++ OP_TYPES.BUY ++ "] Dead before instantiation: " ++ e))
  | .ok buyEntity =>
    let consolidatedNFT := st.dbAdapter.getNFTByIdUnique buyEntity.id
    let nft := consolidatedNFTtoInstance consolidatedNFT
    match buyInteraction remark buyEntity nft st.ss58Format with
    | .error e => (true, invalidate st OP_TYPES.BUY remark buyEntity.id e)
    | .ok updated =>
      match nft, consolidatedNFT with
      | some _, some old =>
        let st1 := { st with dbAdapter := st.dbAdapter.updateNFTBuy updated old remark.block }
        let st2 :=
          if st1.emitInteractionChanges then
            pushInteractionChange st1 OP_TYPES.BUY updated.getId
          else st1
        (true, st2)
      | _, _ => (true, st)

/-- `Consolidator.emote` — the EMOTE handler.  Persistence and the
interaction-change entry are guarded by
`remark.block !== consolidatedNFT.updatedAtBlock`. -/
def emote (st : ConsolidatorState) (remark : Remark) : Bool × ConsolidatorState :=
  match Emote.fromRemark remark.remark with
  | .error e =>
      (true, invalidate st OP_TYPES.EMOTE remark remark.remark.rawText
        ("[" ++ OP_TYPES.EMOTE ++ "] Dead before instantiation: " ++ e))
  | .ok emoteEntity =>
    let consolidatedNFT := st.dbAdapter.getNFTById emoteEntity.id
    let nft := consolidatedNFTtoInstance consolidatedNFT
    match emoteInteraction remark emoteEntity nft st.emitEmoteChanges with
    | .error e => (true, invalidate st OP_TYPES.EMOTE remark emoteEntity.id e)
    | .ok updated =>
      match nft, consolidatedNFT with
      | some _, some old =>
        if some remark.block ≠ old.updatedAtBlock then
          let st1 :=
            { st with dbAdapter := st.dbAdapter.updateNFTEmote updated old remark.block }
          let st2 :=
            if st1.emitInteractionChanges then
              pushInteractionChange st1 OP_TYPES.EMOTE updated.getId
            else st1
          (false, st2)
        else
          (false, st)
      | _, _ => (false, st)

/-- `Consolidator.changeIssuer` — the CHANGEISSUER handler. -/
def changeIssuer (st : ConsolidatorState) (remark : Remark) : Bool × ConsolidatorState :=
  match getChangeIssuerEntity remark with
  | .error e => (true, invalidate st OP_TYPES.CHANGEISSUER remark remark.remark.rawText e)
  | .ok entity =>
    let consolidatedCollection := st.dbAdapter.getCollectionById entity.id
    let collection := consolidatedCollectionToInstance consolidatedCollection
    match changeIssuerInteraction remark entity collection with
    | .error e => (true, invalidate st OP_TYPES.CHANGEISSUER remark entity.id e)
    | .ok updated =>
      match collection, consolidatedCollection with
      | some _, some old =>
        let st1 := { st with
          dbAdapter := st.dbAdapter.updateCollectionIssuer updated old remark.block }
        let st2 :=
          if st1.emitInteractionChanges then
            pushInteractionChange st1 OP_TYPES.CHANGEISSUER updated.id
          else st1
        (false, st2)
      | _, _ => (false, st)

/-- The dispatch of `consolidate`'s switch statement: the handler's
result for a recognized `interaction_type`, `none` for the default
(log-only) branch. -/
def dispatch (st : ConsolidatorState) (remark : Remark) :
    Option (Bool × ConsolidatorState) :=
  if remark.interaction_type = OP_TYPES.MINT then some (mint st remark)
  else if remark.interaction_type = OP_TYPES.MINTNFT then some (mintNFT st remark)
  else if remark.interaction_type = OP_TYPES.SEND then some (send st remark)
  else if remark.interaction_type = OP_TYPES.BUY then some (buy st remark)
  else if remark.interaction_type = OP_TYPES.CONSUME then some (consume st remark)
  else if remark.interaction_type = OP_TYPES.LIST then some (list st remark)
  else if remark.interaction_type = OP_TYPES.EMOTE then some (emote st remark)
  else if remark.interaction_type = OP_TYPES.CHANGEISSUER then some (changeIssuer st remark)
  else none

/-- The `for`-loop of `consolidate`.  A `true` handler result takes the
`continue` branch and a `false` result falls out of the `switch`; both
proceed to the next remark.  An unrecognized type only logs. -/
def consolidateLoop : ConsolidatorState → List Remark → ConsolidatorState
  | st, [] => st
  | st, remark :: rest =>
    match dispatch st remark with
    | some (true, st2) => consolidateLoop st2 rest
    | some (false, st2) => consolidateLoop st2 rest
    | none => consolidateLoop st rest

/-- The state a single iteration of the loop hands to the next one. -/
def stepState (st : ConsolidatorState) (remark : Remark) : ConsolidatorState :=
  match dispatch st remark with
  | some (_, st2) => st2
  | none => st

/-- `Consolidator.consolidate`: default the optional remark list, run
the loop, then assemble the snapshot — bulk readers when the adapter
exposes them (else empty sets), the invalid-call ledger, and the
interaction-change log only when emission was enabled; `lastBlock` is
declared on the return type but never assigned.  Returns the snapshot
together with the instance state after the run. -/
def consolidate (st : ConsolidatorState) (rmrks : Option (List Remark)) :
    ConsolidatorReturnType × ConsolidatorState :=
  let remarks := rmrks.getD []
  let stF := consolidateLoop st remarks
  let result : ConsolidatorReturnType :=
    { nfts := if stF.dbAdapter.hasGetAllNFTs then stF.dbAdapter.store.nfts else []
      collections :=
        if stF.dbAdapter.hasGetAllCollections then stF.dbAdapter.store.collections else []
      invalid := stF.invalidCalls
      changes := if stF.emitInteractionChanges then some stF.interactionChanges else none
      lastBlock := none }
  (result, stF)

end Consolidator

/-! Helper lemmas about the shape of handler results. -/

theorem append_singleton_ne {α : Type} (l : List α) (x : α) : l ++ [x] ≠ l := by
  intro h
  have hlen := congrArg List.length h
  simp at hlen

/-- The configuration surface of the engine (constructor options and
adapter capability flags), which no handler ever writes. -/
def sameConfig (a b : ConsolidatorState) : Prop :=
  b.ss58Format = a.ss58Format ∧
  b.emitEmoteChanges = a.emitEmoteChanges ∧
  b.emitInteractionChanges = a.emitInteractionChanges ∧
  b.dbAdapter.hasGetAllNFTs = a.dbAdapter.hasGetAllNFTs ∧
  b.dbAdapter.hasGetAllCollections = a.dbAdapter.hasGetAllCollections

theorem sameConfig_refl (a : ConsolidatorState) : sameConfig a a := by
  simp [sameConfig]

theorem sameConfig_trans {a b c : ConsolidatorState}
    (h1 : sameConfig a b) (h2 : sameConfig b c) : sameConfig a c := by
  obtain ⟨x1, x2, x3, x4, x5⟩ := h1
  obtain ⟨y1, y2, y3, y4, y5⟩ := h2
  exact ⟨y1.trans x1, y2.trans x2, y3.trans x3, y4.trans x4, y5.trans x5⟩

theorem mint_shape (st : ConsolidatorState) (r : Remark) :
    sameConfig st (Consolidator.mint st r).2 ∧
    ((Consolidator.mint st r).2.invalidCalls = st.invalidCalls ∨
      ∃ c, (Consolidator.mint st r).2.invalidCalls = st.invalidCalls ++ [c]) ∧
    (∃ l, (Consolidator.mint st r).2.interactionChanges = st.interactionChanges ++ l) ∧
    ((Consolidator.mint st r).1 = false ↔
      (Consolidator.mint st r).2.invalidCalls = st.invalidCalls) := by
  unfold Consolidator.mint
  split
  · simp [sameConfig, Consolidator.invalidate, append_singleton_ne]
  · split
    · simp [sameConfig, Consolidator.invalidate, append_singleton_ne]
    · split
      · simp [sameConfig, Consolidator.invalidate, append_singleton_ne]
      · by_cases h : st.emitInteractionChanges = true <;>
          simp [h, sameConfig, Consolidator.pushInteractionChange,
            AdapterState.updateCollectionMint, AdapterState.withStore]

theorem mintNFT_shape (st : ConsolidatorState) (r : Remark) :
    sameConfig st (Consolidator.mintNFT st r).2 ∧
    ((Consolidator.mintNFT st r).2.invalidCalls = st.invalidCalls ∨
      ∃ c, (Consolidator.mintNFT st r).2.invalidCalls = st.invalidCalls ++ [c]) ∧
    (∃ l, (Consolidator.mintNFT st r).2.interactionChanges = st.interactionChanges ++ l) ∧
    ((Consolidator.mintNFT st r).1 = false ↔
      (Consolidator.mintNFT st r).2.invalidCalls = st.invalidCalls) := by
  unfold Consolidator.mintNFT
  split
  · simp [sameConfig, Consolidator.invalidate, append_singleton_ne]
  · split
    · simp [sameConfig, Consolidator.invalidate, append_singleton_ne]
    · dsimp only
      split
      · simp [sameConfig, Consolidator.invalidate, append_singleton_ne]
      · by_cases h : st.emitInteractionChanges = true <;>
          simp [h, sameConfig, Consolidator.pushInteractionChange,
            AdapterState.updateNFTMint, AdapterState.withStore]

theorem send_shape (st : ConsolidatorState) (r : Remark) :
    sameConfig st (Consolidator.send st r).2 ∧
    ((Consolidator.send st r).2.invalidCalls = st.invalidCalls ∨
      ∃ c, (Consolidator.send st r).2.invalidCalls = st.invalidCalls ++ [c]) ∧
    (∃ l, (Consolidator.send st r).2.interactionChanges = st.interactionChanges ++ l) ∧
    ((Consolidator.send st r).1 = false ↔
      (Consolidator.send st r).2.invalidCalls = st.invalidCalls) := by
  unfold Consolidator.send
  split
  · simp [sameConfig, Consolidator.invalidate, append_singleton_ne]
  · dsimp only
    split
    · simp [sameConfig, Consolidator.invalidate, append_singleton_ne]
    · split
      · by_cases h : st.emitInteractionChanges = true <;>
          simp [h, sameConfig, Consolidator.pushInteractionChange,
            AdapterState.updateNFTSend, AdapterState.replaceNFT, AdapterState.withStore]
      · simp [sameConfig]

theorem list_shape (st : ConsolidatorState) (r : Remark) :
    sameConfig st (Consolidator.list st r).2 ∧
    ((Consolidator.list st r).2.invalidCalls = st.invalidCalls ∨
      ∃ c, (Consolidator.list st r).2.invalidCalls = st.invalidCalls ++ [c]) ∧
    (∃ l, (Consolidator.list st r).2.interactionChanges = st.interactionChanges ++ l) ∧
    (Consolidator.list st r).1 = true := by
  unfold Consolidator.list
  split
  · simp [sameConfig, Consolidator.invalidate, append_singleton_ne]
  · dsimp only
    split
    · simp [sameConfig, Consolidator.invalidate, append_singleton_ne]
    · split
      · by_cases h : st.emitInteractionChanges = true <;>
          simp [h, sameConfig, Consolidator.pushInteractionChange,
            AdapterState.updateNFTList, AdapterState.replaceNFT, AdapterState.withStore]
      · simp [sameConfig]

theorem consume_shape (st : ConsolidatorState) (r : Remark) :
    sameConfig st (Consolidator.consume st r).2 ∧
    ((Consolidator.consume st r).2.invalidCalls = st.invalidCalls ∨
      ∃ c, (Consolidator.consume st r).2.invalidCalls = st.invalidCalls ++ [c]) ∧
    (∃ l, (Consolidator.consume st r).2.interactionChanges = st.interactionChanges ++ l) ∧
    (Consolidator.consume st r).1 = true := by
  unfold Consolidator.consume
  split
  · simp [sameConfig, Consolidator.invalidate, append_singleton_ne]
  · dsimp only
    split
    · simp [sameConfig, Consolidator.invalidate, append_singleton_ne]
    · split
      · by_cases h : st.emitInteractionChanges = true <;>
          simp [h, sameConfig, Consolidator.pushInteractionChange,
            AdapterState.updateNFTConsume, AdapterState.replaceNFT, AdapterState.withStore]
      · simp [sameConfig]

theorem buy_shape (st : ConsolidatorState) (r : Remark) :
    sameConfig st (Consolidator.buy st r).2 ∧
    ((Consolidator.buy st r).2.invalidCalls = st.invalidCalls ∨
      ∃ c, (Consolidator.buy st r).2.invalidCalls = st.invalidCalls ++ [c]) ∧
    (∃ l, (Consolidator.buy st r).2.interactionChanges = st.interactionChanges ++ l) ∧
    (Consolidator.buy st r).1 = true := by
  unfold Consolidator.buy
  split
  · simp [sameConfig, Consolidator.invalidate, append_singleton_ne]
  · dsimp only
    split
    · simp [sameConfig, Consolidator.invalidate, append_singleton_ne]
    · split
      · by_cases h : st.emitInteractionChanges = true <;>
          simp [h, sameConfig, Consolidator.pushInteractionChange,
            AdapterState.updateNFTBuy, AdapterState.replaceNFT, AdapterState.withStore]
      · simp [sameConfig]

theorem emote_shape (st : ConsolidatorState) (r : Remark) :
    sameConfig st (Consolidator.emote st r).2 ∧
    ((Consolidator.emote st r).2.invalidCalls = st.invalidCalls ∨
      ∃ c, (Consolidator.emote st r).2.invalidCalls = st.invalidCalls ++ [c]) ∧
    (∃ l, (Consolidator.emote st r).2.interactionChanges = st.interactionChanges ++ l) ∧
    ((Consolidator.emote st r).1 = false ↔
      (Consolidator.emote st r).2.invalidCalls = st.invalidCalls) := by
  unfold Consolidator.emote
  split
  · simp [sameConfig, Consolidator.invalidate, append_singleton_ne]
  · dsimp only
    split
    · simp [sameConfig, Consolidator.invalidate, append_singleton_ne]
    · split
      · split
        · by_cases h : st.emitInteractionChanges = true <;>
            simp [h, sameConfig, Consolidator.pushInteractionChange,
              AdapterState.updateNFTEmote, AdapterState.replaceNFT, AdapterState.withStore]
        · simp [sameConfig]
      · simp [sameConfig]

theorem changeIssuer_shape (st : ConsolidatorState) (r : Remark) :
    sameConfig st (Consolidator.changeIssuer st r).2 ∧
    ((Consolidator.changeIssuer st r).2.invalidCalls = st.invalidCalls ∨
      ∃ c, (Consolidator.changeIssuer st r).2.invalidCalls = st.invalidCalls ++ [c]) ∧
    (∃ l, (Consolidator.changeIssuer st r).2.interactionChanges = st.interactionChanges ++ l) ∧
    ((Consolidator.changeIssuer st r).1 = false ↔
      (Consolidator.changeIssuer st r).2.invalidCalls = st.invalidCalls) := by
  unfold Consolidator.changeIssuer
  split
  · simp [sameConfig, Consolidator.invalidate, append_singleton_ne]
  · dsimp only
    split
    · simp [sameConfig, Consolidator.invalidate, append_singleton_ne]
    · split
      · by_cases h : st.emitInteractionChanges = true <;>
          simp [h, sameConfig, Consolidator.pushInteractionChange,
            AdapterState.updateCollectionIssuer, AdapterState.withStore]
      · simp [sameConfig]

theorem stepState_shape (st : ConsolidatorState) (r : Remark) :
    sameConfig st (Consolidator.stepState st r) ∧
    ((Consolidator.stepState st r).invalidCalls = st.invalidCalls ∨
      ∃ c, (Consolidator.stepState st r).invalidCalls = st.invalidCalls ++ [c]) ∧
    (∃ l, (Consolidator.stepState st r).interactionChanges = st.interactionChanges ++ l) := by
  unfold Consolidator.stepState Consolidator.dispatch
  by_cases h1 : r.interaction_type = OP_TYPES.MINT
  · simp only [h1, if_true]
    exact ⟨(mint_shape st r).1, (mint_shape st r).2.1, (mint_shape st r).2.2.1⟩
  by_cases h2 : r.interaction_type = OP_TYPES.MINTNFT
  · simp only [h1, h2, if_false, if_true]
    exact ⟨(mintNFT_shape st r).1, (mintNFT_shape st r).2.1, (mintNFT_shape st r).2.2.1⟩
  by_cases h3 : r.interaction_type = OP_TYPES.SEND
  · simp only [h1, h2, h3, if_false, if_true]
    exact ⟨(send_shape st r).1, (send_shape st r).2.1, (send_shape st r).2.2.1⟩
  by_cases h4 : r.interaction_type = OP_TYPES.BUY
  · simp only [h1, h2, h3, h4, if_false, if_true]
    exact ⟨(buy_shape st r).1, (buy_shape st r).2.1, (buy_shape st r).2.2.1⟩
  by_cases h5 : r.interaction_type = OP_TYPES.CONSUME
  · simp only [h1, h2, h3, h4, h5, if_false, if_true]
    exact ⟨(consume_shape st r).1, (consume_shape st r).2.1, (consume_shape st r).2.2.1⟩
  by_cases h6 : r.interaction_type = OP_TYPES.LIST
  · simp only [h1, h2, h3, h4, h5, h6, if_false, if_true]
    exact ⟨(list_shape st r).1, (list_shape st r).2.1, (list_shape st r).2.2.1⟩
  by_cases h7 : r.interaction_type = OP_TYPES.EMOTE
  · simp only [h1, h2, h3, h4, h5, h6, h7, if_false, if_true]
    exact ⟨(emote_shape st r).1, (emote_shape st r).2.1, (emote_shape st r).2.2.1⟩
  by_cases h8 : r.interaction_type = OP_TYPES.CHANGEISSUER
  · simp only [h1, h2, h3, h4, h5, h6, h7, h8, if_false, if_true]
    exact ⟨(changeIssuer_shape st r).1, (changeIssuer_shape st r).2.1,
      (changeIssuer_shape st r).2.2.1⟩
  · simp only [h1, h2, h3, h4, h5, h6, h7, h8, if_false]
    refine ⟨sameConfig_refl st, Or.inl ?_, ⟨[], by simp⟩⟩
    simp

theorem consolidateLoop_cons (st : ConsolidatorState) (r : Remark) (rs : List Remark) :
    Consolidator.consolidateLoop st (r :: rs) =
      Consolidator.consolidateLoop (Consolidator.stepState st r) rs := by
  rcases h : Consolidator.dispatch st r with _ | ⟨b, st2⟩
  · simp [Consolidator.consolidateLoop, Consolidator.stepState, h]
  · cases b <;> simp [Consolidator.consolidateLoop, Consolidator.stepState, h]

theorem consolidateLoop_shape (rs : List Remark) (st : ConsolidatorState) :
    sameConfig st (Consolidator.consolidateLoop st rs) ∧
    (∃ l, (Consolidator.consolidateLoop st rs).invalidCalls = st.invalidCalls ++ l) ∧
    (∃ l, (Consolidator.consolidateLoop st rs).interactionChanges =
      st.interactionChanges ++ l) := by
  induction rs generalizing st with
  | nil =>
      exact ⟨sameConfig_refl st, ⟨[], by simp [Consolidator.consolidateLoop]⟩,
        ⟨[], by simp [Consolidator.consolidateLoop]⟩⟩
  | cons r rest ih =>
      rw [consolidateLoop_cons]
      obtain ⟨hc, hi, hx⟩ := stepState_shape st r
      obtain ⟨hc2, ⟨l2, hi2⟩, ⟨m2, hx2⟩⟩ := ih (Consolidator.stepState st r)
      refine ⟨sameConfig_trans hc hc2, ?_, ?_⟩
      · rcases hi with hi | ⟨c, hi⟩
        · exact ⟨l2, by rw [hi2, hi]⟩
        · exact ⟨[c] ++ l2, by rw [hi2, hi, List.append_assoc]⟩
      · obtain ⟨m1, hx1⟩ := hx
        exact ⟨m1 ++ m2, by rw [hx2, hx1, List.append_assoc]⟩

/-! Concrete inputs for the claim about MINT id validation. -/

/-- A caller address whose decoded public key hex is the usual
`0x`-prefixed 66-character string. -/
def c1PK : String :=
  "0x0123456789abcdef0123456789abcdef0123456789abcdef0123456789abcdef"

/-- A 48-character collection symbol, making the generated id exactly
66 characters long so that the handler's `substring`-based fragment
comparison lines up with the id's trailing 8 characters. -/
def c1Symbol : String := "012345678901234567890123456789012345678901234567"

/-- The collection id generated for that caller and symbol. -/
def c1Id : String := Collection.generateId c1PK c1Symbol

/-- A candidate collection whose id is the generated one. -/
def c1Collection : CollectionConsolidated :=
  { block := 5, name := "test collection", max := 0, issuer := c1PK,
    symbol := c1Symbol, id := c1Id, metadata := "", changes := [],
    updatedAtBlock := none }

/-- A well-formed MINT remark for that collection, signed by the very
caller whose public key the generated id embeds. -/
def c1Remark : Remark :=
  { block := 5, caller := c1PK, interaction_type := OP_TYPES.MINT,
    remark := .collectionPayload c1Collection }

/-- C1: the claim says a parsed MINT whose collection id is fresh
succeeds exactly when the first 8 and last 8 hex characters of the
generated id equal the caller's pubkey fragments, and that a mismatch
is recorded as a validation failure.  The code does the opposite:
`validateMintIds` throws precisely when its two fragment comparisons
BOTH succeed (the thrown message "does not match generated ID" fires on
a match), so here a remark whose generated id opens with the pubkey's
hex fragment and closes with its trailing 8 hex characters — and which
parses and is fresh in the store — is rejected with the
id-validation failure and nothing is persisted. -/
theorem c1_mint_id_validation_inverted :
    jsSubstr c1Id 0 8 = jsSubstr (u8aToHex (decodeAddress c1PK)) 2 8 ∧
    jsSubstringFrom c1Id (c1Id.length - 8) =
      jsSubstringFrom (u8aToHex (decodeAddress c1PK))
        ((u8aToHex (decodeAddress c1PK)).length - 8) ∧
    getCollectionFromRemark c1Remark = Except.ok c1Collection ∧
    (Consolidator.construct none none none none).dbAdapter.getCollectionById
      c1Collection.id = none ∧
    (Consolidator.mint (Consolidator.construct none none none none) c1Remark).1 = true ∧
    (Consolidator.mint (Consolidator.construct none none none none)
      c1Remark).2.dbAdapter.store.collections = [] ∧
    (Consolidator.mint (Consolidator.construct none none none none)
      c1Remark).2.invalidCalls =
      [{ message := "Caller\x27s pubkey " ++ c1PK ++ " (" ++ c1Id ++
           ") does not match generated ID",
         caller := c1PK, block := 5, object_id := c1Collection.id,
         op_type := OP_TYPES.MINT }] := by
  refine ⟨rfl, rfl, rfl, rfl, rfl, rfl, rfl⟩

/-- C3: a remark whose `interaction_type` is none of the eight
recognized operation kinds is dispatched to no handler, leaves the
whole engine state (ledger, caches, change log, adapter) untouched,
and the loop continues with the remaining remarks. -/
theorem c3_unknown_interaction_type_skipped
    (st : ConsolidatorState) (r : Remark) (rs : List Remark)
    (h1 : r.interaction_type ≠ OP_TYPES.MINT)
    (h2 : r.interaction_type ≠ OP_TYPES.MINTNFT)
    (h3 : r.interaction_type ≠ OP_TYPES.SEND)
    (h4 : r.interaction_type ≠ OP_TYPES.BUY)
    (h5 : r.interaction_type ≠ OP_TYPES.CONSUME)
    (h6 : r.interaction_type ≠ OP_TYPES.LIST)
    (h7 : r.interaction_type ≠ OP_TYPES.EMOTE)
    (h8 : r.interaction_type ≠ OP_TYPES.CHANGEISSUER) :
    Consolidator.dispatch st r = none ∧
    Consolidator.stepState st r = st ∧
    Consolidator.consolidateLoop st (r :: rs) = Consolidator.consolidateLoop st rs := by
  have hd : Consolidator.dispatch st r = none := by
    simp [Consolidator.dispatch, h1, h2, h3, h4, h5, h6, h7, h8]
  refine ⟨hd, ?_, ?_⟩
  · simp [Consolidator.stepState, hd]
  · simp [Consolidator.consolidateLoop, hd]

/-- An unrecognized-type remark used to witness the skip behavior. -/
def c3Remark : Remark :=
  { block := 1, caller := "alice", interaction_type := "FOO",
    remark := .malformed "frobnicate" }

theorem c3_witness :
    Consolidator.dispatch (Consolidator.construct none none none none) c3Remark = none ∧
    Consolidator.stepState (Consolidator.construct none none none none) c3Remark =
      Consolidator.construct none none none none ∧
    Consolidator.consolidateLoop (Consolidator.construct none none none none)
        (c3Remark :: []) =
      Consolidator.consolidateLoop (Consolidator.construct none none none none) [] :=
  c3_unknown_interaction_type_skipped (Consolidator.construct none none none none)
    c3Remark [] (by decide) (by decide) (by decide) (by decide) (by decide) (by decide)
    (by decide) (by decide)

/-- C4: List, Buy and Consume return `true` ("continue") on success and
failure alike, while Mint, MintNFT, Send, Emote and ChangeIssuer return
`false` exactly on paths that record no invalid call (their success
paths) and `true` on every rejection; and the returned boolean never
changes which remarks are processed — one loop iteration always hands
the handler's resulting state to the processing of the remaining
remarks, whatever the boolean was. -/
theorem c4_handler_return_conventions :
    (∀ st r, (Consolidator.list st r).1 = true) ∧
    (∀ st r, (Consolidator.buy st r).1 = true) ∧
    (∀ st r, (Consolidator.consume st r).1 = true) ∧
    (∀ st r, (Consolidator.mint st r).1 = false ↔
      (Consolidator.mint st r).2.invalidCalls = st.invalidCalls) ∧
    (∀ st r, (Consolidator.mintNFT st r).1 = false ↔
      (Consolidator.mintNFT st r).2.invalidCalls = st.invalidCalls) ∧
    (∀ st r, (Consolidator.send st r).1 = false ↔
      (Consolidator.send st r).2.invalidCalls = st.invalidCalls) ∧
    (∀ st r, (Consolidator.emote st r).1 = false ↔
      (Consolidator.emote st r).2.invalidCalls = st.invalidCalls) ∧
    (∀ st r, (Consolidator.changeIssuer st r).1 = false ↔
      (Consolidator.changeIssuer st r).2.invalidCalls = st.invalidCalls) ∧
    (∀ st r rs, Consolidator.consolidateLoop st (r :: rs) =
      Consolidator.consolidateLoop (Consolidator.stepState st r) rs) :=
  ⟨fun st r => (list_shape st r).2.2.2,
   fun st r => (buy_shape st r).2.2.2,
   fun st r => (consume_shape st r).2.2.2,
   fun st r => (mint_shape st r).2.2.2,
   fun st r => (mintNFT_shape st r).2.2.2,
   fun st r => (send_shape st r).2.2.2,
   fun st r => (emote_shape st r).2.2.2,
   fun st r => (changeIssuer_shape st r).2.2.2,
   fun st r rs => consolidateLoop_cons st r rs⟩

/-- C7: whatever the remark sequence (the adapter operations of the
embedding are total functions, mirroring the claim's proviso that the
adapter itself does not throw), `consolidate` always returns a
snapshot whose invalid ledger is the instance ledger; each remark is
processed in isolation — a rejected remark adds exactly one ledger
entry instead of propagating an exception — and the loop always
continues with the remaining remarks. -/
theorem c7_no_exception_escapes :
    (∀ st o, ∃ snap st2, Consolidator.consolidate st o = (snap, st2) ∧
      snap.invalid = st2.invalidCalls) ∧
    (∀ st r, (Consolidator.stepState st r).invalidCalls = st.invalidCalls ∨
      ∃ c, (Consolidator.stepState st r).invalidCalls = st.invalidCalls ++ [c]) ∧
    (∀ st r rs, Consolidator.consolidateLoop st (r :: rs) =
      Consolidator.consolidateLoop (Consolidator.stepState st r) rs) :=
  ⟨fun st o => ⟨(Consolidator.consolidate st o).1, (Consolidator.consolidate st o).2,
      rfl, rfl⟩,
   fun st r => (stepState_shape st r).2.1,
   fun st r rs => consolidateLoop_cons st r rs⟩

/-- C8: consolidation is deterministic — two Consolidator instances
built with the same configuration process the same remark sequence to
the same snapshot and the same final instance state (the embedding of
the engine and its default adapter is a pure function of the
constructor arguments and the remark sequence; the source reads no
clock, randomness or other ambient state). -/
theorem c8_consolidate_deterministic
    (ss58 : Option Nat) (adp : Option AdapterState) (eec eic : Option Bool)
    (o : Option (List Remark)) (st1 st2 : ConsolidatorState)
    (hfresh1 : st1 = Consolidator.construct ss58 adp eec eic)
    (hfresh2 : st2 = Consolidator.construct ss58 adp eec eic) :
    Consolidator.consolidate st1 o = Consolidator.consolidate st2 o := by
  subst hfresh1
  subst hfresh2
  rfl

theorem c8_witness :
    Consolidator.consolidate
        (Consolidator.construct (some 2) none (some true) (some true))
        (some [c1Remark, c3Remark]) =
      Consolidator.consolidate
        (Consolidator.construct (some 2) none (some true) (some true))
        (some [c1Remark, c3Remark]) :=
  c8_consolidate_deterministic (some 2) none (some true) (some true)
    (some [c1Remark, c3Remark]) _ _ rfl rfl

/-- C10: for every input — `none` (the undefined sequence) included —
the snapshot's `lastBlock` field is never assigned, and the `changes`
field is present exactly when the `emitInteractionChanges` option was
enabled at construction. -/
theorem c10_snapshot_optional_fields
    (ss58 : Option Nat) (adp : Option AdapterState) (eec eic : Option Bool)
    (o : Option (List Remark)) :
    (Consolidator.consolidate (Consolidator.construct ss58 adp eec eic) o).1.lastBlock
      = none ∧
    ((Consolidator.consolidate (Consolidator.construct ss58 adp eec eic) o).1.changes
      ≠ none ↔ eic.getD false = true) := by
  obtain ⟨-, -, hemit, -, -⟩ :=
    (consolidateLoop_shape (o.getD []) (Consolidator.construct ss58 adp eec eic)).1
  refine ⟨rfl, ?_⟩
  show (if (Consolidator.consolidateLoop (Consolidator.construct ss58 adp eec eic)
      (o.getD [])).emitInteractionChanges then
      some (Consolidator.consolidateLoop (Consolidator.construct ss58 adp eec eic)
        (o.getD [])).interactionChanges else none) ≠ none ↔ eic.getD false = true
  rw [hemit]
  show (if eic.getD false then _ else none) ≠ none ↔ eic.getD false = true
  cases h : eic.getD false <;> simp [h]

/-! Definitional component lemmas for the assembled snapshot. -/

theorem consolidate_snd (st : ConsolidatorState) (o : Option (List Remark)) :
    (Consolidator.consolidate st o).2 = Consolidator.consolidateLoop st (o.getD []) :=
  rfl

theorem consolidate_fst_invalid (st : ConsolidatorState) (o : Option (List Remark)) :
    (Consolidator.consolidate st o).1.invalid =
      (Consolidator.consolidateLoop st (o.getD [])).invalidCalls :=
  rfl

theorem consolidate_fst_changes (st : ConsolidatorState) (o : Option (List Remark)) :
    (Consolidator.consolidate st o).1.changes =
      (if (Consolidator.consolidateLoop st (o.getD [])).emitInteractionChanges then
        some (Consolidator.consolidateLoop st (o.getD [])).interactionChanges
      else none) :=
  rfl

theorem consolidate_fst_nfts (st : ConsolidatorState) (o : Option (List Remark)) :
    (Consolidator.consolidate st o).1.nfts =
      (if (Consolidator.consolidateLoop st (o.getD [])).dbAdapter.hasGetAllNFTs then
        (Consolidator.consolidateLoop st (o.getD [])).dbAdapter.store.nfts
      else []) :=
  rfl

theorem consolidate_fst_collections (st : ConsolidatorState) (o : Option (List Remark)) :
    (Consolidator.consolidate st o).1.collections =
      (if (Consolidator.consolidateLoop st (o.getD [])).dbAdapter.hasGetAllCollections then
        (Consolidator.consolidateLoop st (o.getD [])).dbAdapter.store.collections
      else []) :=
  rfl

/-- C6: when the adapter exposes no bulk readers, the snapshot's item
and collection sets are empty while the invalid-call ledger (and, when
enabled, the change log) is still returned; when the bulk readers
exist, the snapshot's sets are exactly the adapter store contents after
the whole sequence was processed. -/
theorem c6_bulk_reader_snapshot (st : ConsolidatorState) (o : Option (List Remark)) :
    (st.dbAdapter.hasGetAllNFTs = false →
      (Consolidator.consolidate st o).1.nfts = []) ∧
    (st.dbAdapter.hasGetAllCollections = false →
      (Consolidator.consolidate st o).1.collections = []) ∧
    (st.dbAdapter.hasGetAllNFTs = true →
      (Consolidator.consolidate st o).1.nfts =
        (Consolidator.consolidateLoop st (o.getD [])).dbAdapter.store.nfts) ∧
    (st.dbAdapter.hasGetAllCollections = true →
      (Consolidator.consolidate st o).1.collections =
        (Consolidator.consolidateLoop st (o.getD [])).dbAdapter.store.collections) ∧
    (Consolidator.consolidate st o).1.invalid =
      (Consolidator.consolidateLoop st (o.getD [])).invalidCalls ∧
    (st.emitInteractionChanges = true →
      (Consolidator.consolidate st o).1.changes =
        some (Consolidator.consolidateLoop st (o.getD [])).interactionChanges) := by
  obtain ⟨-, -, hemit, hN, hC⟩ := (consolidateLoop_shape (o.getD []) st).1
  refine ⟨?_, ?_, ?_, ?_, consolidate_fst_invalid st o, ?_⟩
  · intro h
    rw [consolidate_fst_nfts, hN, h]
    simp
  · intro h
    rw [consolidate_fst_collections, hC, h]
    simp
  · intro h
    rw [consolidate_fst_nfts, hN, h]
    simp
  · intro h
    rw [consolidate_fst_collections, hC, h]
    simp
  · intro h
    rw [consolidate_fst_changes, hemit, h]
    simp

/-- A write-only adapter: no bulk readers. -/
def c6Adapter : AdapterState :=
  { store := { nfts := [], collections := [] }
    hasGetAllNFTs := false
    hasGetAllCollections := false }

theorem c6_witness :
    (Consolidator.consolidate
      (Consolidator.construct none (some c6Adapter) none (some true))
      (some [c3Remark])).1.nfts = [] ∧
    (Consolidator.consolidate
      (Consolidator.construct none (some c6Adapter) none (some true))
      (some [c3Remark])).1.collections = [] ∧
    (Consolidator.consolidate
      (Consolidator.construct none (some c6Adapter) none (some true))
      (some [c3Remark])).1.changes =
      some (Consolidator.consolidateLoop
        (Consolidator.construct none (some c6Adapter) none (some true))
        [c3Remark]).interactionChanges ∧
    (Consolidator.consolidate (Consolidator.construct none none none none)
      (some [c3Remark])).1.nfts =
      (Consolidator.consolidateLoop (Consolidator.construct none none none none)
        [c3Remark]).dbAdapter.store.nfts :=
  ⟨(c6_bulk_reader_snapshot
      (Consolidator.construct none (some c6Adapter) none (some true))
      (some [c3Remark])).1 rfl,
   (c6_bulk_reader_snapshot
      (Consolidator.construct none (some c6Adapter) none (some true))
      (some [c3Remark])).2.1 rfl,
   (c6_bulk_reader_snapshot
      (Consolidator.construct none (some c6Adapter) none (some true))
      (some [c3Remark])).2.2.2.2.2 rfl,
   (c6_bulk_reader_snapshot (Consolidator.construct none none none none)
      (some [c3Remark])).2.2.1 rfl⟩

/-- C9: the invalid-call ledger and the interaction-change log are
instance state that is only appended to and never reset between runs —
a second `consolidate` call's snapshot extends the first call's ledger
(and, when emission is enabled, its change log) with the entries of the
second call's remarks. -/
theorem c9_ledgers_accumulate_across_runs (st : ConsolidatorState)
    (o1 o2 : Option (List Remark)) :
    (∃ l, (Consolidator.consolidate (Consolidator.consolidate st o1).2 o2).1.invalid =
      (Consolidator.consolidate st o1).1.invalid ++ l) ∧
    (st.emitInteractionChanges = true →
      ∃ l1 l2, (Consolidator.consolidate st o1).1.changes = some l1 ∧
        (Consolidator.consolidate (Consolidator.consolidate st o1).2 o2).1.changes =
          some (l1 ++ l2)) := by
  obtain ⟨⟨-, -, hemit2, -, -⟩, ⟨li, hli⟩, ⟨lc, hlc⟩⟩ :=
    consolidateLoop_shape (o2.getD []) (Consolidator.consolidateLoop st (o1.getD []))
  constructor
  · refine ⟨li, ?_⟩
    rw [consolidate_snd, consolidate_fst_invalid, consolidate_fst_invalid]
    exact hli
  · intro hemit
    have hemit1 : (Consolidator.consolidateLoop st (o1.getD [])).emitInteractionChanges
        = true := by
      obtain ⟨-, -, he, -, -⟩ := (consolidateLoop_shape (o1.getD []) st).1
      rw [he, hemit]
    refine ⟨(Consolidator.consolidateLoop st (o1.getD [])).interactionChanges, lc, ?_, ?_⟩
    · rw [consolidate_fst_changes, hemit1]
      simp
    · rw [consolidate_snd, consolidate_fst_changes, hemit2, hemit1]
      simp [hlc]

theorem c9_witness :
    (∃ l, (Consolidator.consolidate
        (Consolidator.consolidate
          (Consolidator.construct none none none (some true)) (some [c1Remark])).2
        (some [c1Remark])).1.invalid =
      (Consolidator.consolidate
        (Consolidator.construct none none none (some true)) (some [c1Remark])).1.invalid
        ++ l) ∧
    (∃ l1 l2, (Consolidator.consolidate
        (Consolidator.construct none none none (some true)) (some [c1Remark])).1.changes
          = some l1 ∧
      (Consolidator.consolidate
        (Consolidator.consolidate
          (Consolidator.construct none none none (some true)) (some [c1Remark])).2
        (some [c1Remark])).1.changes = some (l1 ++ l2)) :=
  ⟨(c9_ledgers_accumulate_across_runs
      (Consolidator.construct none none none (some true))
      (some [c1Remark]) (some [c1Remark])).1,
   (c9_ledgers_accumulate_across_runs
      (Consolidator.construct none none none (some true))
      (some [c1Remark]) (some [c1Remark])).2 rfl⟩

/-- C5: for an EMOTE remark whose payload parses and whose target item
exists, the adapter emote-apply and the interaction-change entry happen
exactly when the remark's block differs from the item's
`updatedAtBlock`; when they coincide the handler is a pure no-op
(state unchanged), and in either case no invalid call is recorded and
the handler returns `false`. -/
theorem c5_emote_updatedAtBlock_guard (st : ConsolidatorState) (r : Remark)
    (e : EmoteEntity) (old : NFTConsolidated)
    (hparse : Emote.fromRemark r.remark = Except.ok e)
    (hfound : st.dbAdapter.getNFTById e.id = some old) :
    (Consolidator.emote st r).1 = false ∧
    (Consolidator.emote st r).2.invalidCalls = st.invalidCalls ∧
    (old.updatedAtBlock = some r.block → (Consolidator.emote st r).2 = st) ∧
    (old.updatedAtBlock ≠ some r.block →
      ∃ u, emoteInteraction r e (some old) st.emitEmoteChanges = Except.ok u ∧
        (Consolidator.emote st r).2.dbAdapter =
          st.dbAdapter.updateNFTEmote u old r.block ∧
        (st.emitInteractionChanges = true →
          (Consolidator.emote st r).2.interactionChanges =
            st.interactionChanges ++ [{ op_type := OP_TYPES.EMOTE, id := u.getId }]) ∧
        (st.emitInteractionChanges = false →
          (Consolidator.emote st r).2.interactionChanges = st.interactionChanges)) := by
  unfold Consolidator.emote
  rw [hparse]
  dsimp only
  rw [hfound]
  show _ ∧ _ ∧ _ ∧ _
  rcases Decidable.em (old.updatedAtBlock = some r.block) with hb | hb
  · have hcond : ¬ (some r.block ≠ old.updatedAtBlock) := by
      rw [hb]
      simp
    cases hec : st.emitEmoteChanges <;>
      simp [emoteInteraction, consolidatedNFTtoInstance, hec, hcond, hb]
  · have hcond : some r.block ≠ old.updatedAtBlock := fun hh => hb hh.symm
    cases hec : st.emitEmoteChanges <;>
      cases hic : st.emitInteractionChanges <;>
        simp [emoteInteraction, consolidatedNFTtoInstance, hec, hic, hcond, hb,
          Consolidator.pushInteractionChange, NFTConsolidated.getId]

/-- A stored item last mutated at block 5, for the emote witness. -/
def c5NFT : NFTConsolidated :=
  { id := "5-COL-ITEM-001", block := 5, collection := "COL", name := "item",
    nftInstance := "ITEM", transferable := 1, sn := "001", metadata := none,
    data := none, forsale := 0, reactions := [], changes := [], owner := "bob",
    burned := "", updatedAtBlock := some 5 }

/-- The emote payload targeting that item. -/
def c5Entity : EmoteEntity := { id := "5-COL-ITEM-001", unicode := "1F600" }

/-- An EMOTE remark at block 7 (different from the item's
`updatedAtBlock`). -/
def c5Remark : Remark :=
  { block := 7, caller := "carol", interaction_type := OP_TYPES.EMOTE,
    remark := .emotePayload c5Entity }

/-- A consolidator whose adapter already holds the item, with
interaction-change emission enabled. -/
def c5State : ConsolidatorState :=
  Consolidator.construct none
    (some { store := { nfts := [c5NFT], collections := [] }
            hasGetAllNFTs := true, hasGetAllCollections := true })
    none (some true)

theorem c5_witness :
    (Consolidator.emote c5State c5Remark).1 = false ∧
    (∃ u, emoteInteraction c5Remark c5Entity (some c5NFT) c5State.emitEmoteChanges =
        Except.ok u ∧
      (Consolidator.emote c5State c5Remark).2.dbAdapter =
        c5State.dbAdapter.updateNFTEmote u c5NFT c5Remark.block ∧
      (c5State.emitInteractionChanges = true →
        (Consolidator.emote c5State c5Remark).2.interactionChanges =
          c5State.interactionChanges ++
            [{ op_type := OP_TYPES.EMOTE, id := u.getId }]) ∧
      (c5State.emitInteractionChanges = false →
        (Consolidator.emote c5State c5Remark).2.interactionChanges =
          c5State.interactionChanges)) :=
  ⟨(c5_emote_updatedAtBlock_guard c5State c5Remark c5Entity c5NFT rfl rfl).1,
   (c5_emote_updatedAtBlock_guard c5State c5Remark c5Entity c5NFT rfl rfl).2.2.2
     (by decide)⟩


/-! Intermediate states for the duplicate-mint claim. -/

/-- The instance state after one successful MINT of `c` on a fresh
default consolidator. -/
def c2AfterFirstMint (c : CollectionConsolidated) : ConsolidatorState :=
  { ss58Format := none, emitEmoteChanges := false, emitInteractionChanges := false,
    invalidCalls := [], collections := [c], nfts := [], interactionChanges := [],
    dbAdapter := { store := { nfts := [], collections := [c] },
                   hasGetAllNFTs := true, hasGetAllCollections := true } }

/-- The rejection the second occurrence of the same MINT produces. -/
def c2DupMintEntry (r : Remark) (c : CollectionConsolidated) : InvalidCall :=
  { message := "[MINT] Attempt to mint already existing collection",
    caller := r.caller, block := r.block, object_id := c.id,
    op_type := OP_TYPES.MINT }

/-- A fresh consolidator over an adapter holding only collection `col`. -/
def c2InitNFT (col : CollectionConsolidated) : ConsolidatorState :=
  Consolidator.construct none
    (some { store := { nfts := [], collections := [col] },
            hasGetAllNFTs := true, hasGetAllCollections := true })
    none none

/-- The instance state after one successful MINTNFT of `n` into `col`. -/
def c2AfterFirstMintNFT (r : Remark) (n : NFTConsolidated)
    (col : CollectionConsolidated) : ConsolidatorState :=
  { ss58Format := none, emitEmoteChanges := false, emitInteractionChanges := false,
    invalidCalls := [], collections := [], nfts := [n], interactionChanges := [],
    dbAdapter := { store := { nfts := [{ n with updatedAtBlock := some r.block }],
                              collections := [col] },
                   hasGetAllNFTs := true, hasGetAllCollections := true } }

/-- The rejection the second occurrence of the same MINTNFT produces. -/
def c2DupMintNFTEntry (r : Remark) (n : NFTConsolidated) : InvalidCall :=
  { message := "[MINTNFT] Attempt to mint already existing NFT",
    caller := r.caller, block := r.block, object_id := n.getId,
    op_type := OP_TYPES.MINTNFT }

theorem c2_mint_first (r : Remark) (c : CollectionConsolidated)
    (hparse : getCollectionFromRemark r = Except.ok c)
    (hval : validateMintIds c r = Except.ok ()) :
    Consolidator.mint (Consolidator.construct none none none none) r =
      (false, c2AfterFirstMint c) := by
  unfold Consolidator.mint
  rw [hparse]
  dsimp only
  rw [show (Consolidator.construct none none none
      none).dbAdapter.getCollectionById c.id = none from rfl]
  dsimp only
  rw [hval]
  rfl

theorem c2_mint_second (r : Remark) (c : CollectionConsolidated)
    (hparse : getCollectionFromRemark r = Except.ok c) :
    Consolidator.mint (c2AfterFirstMint c) r =
      (true, { c2AfterFirstMint c with invalidCalls := [c2DupMintEntry r c] }) := by
  unfold Consolidator.mint
  rw [hparse]
  dsimp only
  have hget : (c2AfterFirstMint c).dbAdapter.getCollectionById c.id = some c := by
    simp [c2AfterFirstMint, AdapterState.getCollectionById]
  rw [hget]
  rfl

theorem c2_mintNFT_first (r : Remark) (n : NFTConsolidated)
    (col : CollectionConsolidated)
    (hparse : NFT.fromRemark r.remark r.block = Except.ok n)
    (hcol : n.collection = col.id)
    (hval : validateMintNFT r n (some col) [] = Except.ok ()) :
    Consolidator.mintNFT (c2InitNFT col) r = (false, c2AfterFirstMintNFT r n col) := by
  unfold Consolidator.mintNFT
  rw [hparse]
  dsimp only
  rw [show (c2InitNFT col).dbAdapter.getNFTByIdUnique n.getId = none from rfl]
  dsimp only
  have hgc : (c2InitNFT col).dbAdapter.getCollectionById n.collection = some col := by
    simp [c2InitNFT, Consolidator.construct, AdapterState.getCollectionById, hcol]
  rw [hgc]
  rw [show consolidatedCollectionToInstance (some col) = some col from rfl]
  rw [show (c2InitNFT col).dbAdapter.store.nfts = [] from rfl]
  rw [hval]
  rfl

theorem c2_mintNFT_second (r : Remark) (n : NFTConsolidated)
    (col : CollectionConsolidated)
    (hparse : NFT.fromRemark r.remark r.block = Except.ok n) :
    Consolidator.mintNFT (c2AfterFirstMintNFT r n col) r =
      (true, { c2AfterFirstMintNFT r n col with
               invalidCalls := [c2DupMintNFTEntry r n] }) := by
  unfold Consolidator.mintNFT
  rw [hparse]
  dsimp only
  have hget : (c2AfterFirstMintNFT r n col).dbAdapter.getNFTByIdUnique n.getId =
      some { n with updatedAtBlock := some r.block } := by
    simp [c2AfterFirstMintNFT, AdapterState.getNFTByIdUnique, NFTConsolidated.getId]
  rw [hget]
  rfl

/-- C2: replaying the same MINT (respectively MINTNFT) remark twice —
one that parses, passes validation and is fresh in the store — leaves
exactly one stored entity with that id and exactly one invalid-call
entry, the duplicate rejection of the second occurrence. -/
theorem c2_duplicate_mint_rejected :
    (∀ (r : Remark) (c : CollectionConsolidated),
      r.interaction_type = OP_TYPES.MINT →
      getCollectionFromRemark r = Except.ok c →
      validateMintIds c r = Except.ok () →
      ((Consolidator.consolidateLoop (Consolidator.construct none none none none)
          [r, r]).dbAdapter.store.collections.filter
            (fun d => d.id == c.id)).length = 1 ∧
      (Consolidator.consolidateLoop (Consolidator.construct none none none none)
          [r, r]).invalidCalls = [c2DupMintEntry r c]) ∧
    (∀ (r : Remark) (n : NFTConsolidated) (col : CollectionConsolidated),
      r.interaction_type = OP_TYPES.MINTNFT →
      NFT.fromRemark r.remark r.block = Except.ok n →
      n.collection = col.id →
      validateMintNFT r n (some col) [] = Except.ok () →
      ((Consolidator.consolidateLoop (c2InitNFT col)
          [r, r]).dbAdapter.store.nfts.filter
            (fun m => m.id == n.getId)).length = 1 ∧
      (Consolidator.consolidateLoop (c2InitNFT col)
          [r, r]).invalidCalls = [c2DupMintNFTEntry r n]) := by
  constructor
  · intro r c hty hparse hval
    have hstep1 : Consolidator.stepState
        (Consolidator.construct none none none none) r = c2AfterFirstMint c := by
      unfold Consolidator.stepState Consolidator.dispatch
      rw [hty, if_pos rfl, c2_mint_first r c hparse hval]
    have hstep2 : Consolidator.stepState (c2AfterFirstMint c) r =
        { c2AfterFirstMint c with invalidCalls := [c2DupMintEntry r c] } := by
      unfold Consolidator.stepState Consolidator.dispatch
      rw [hty, if_pos rfl, c2_mint_second r c hparse]
    rw [consolidateLoop_cons, consolidateLoop_cons, hstep1, hstep2]
    constructor
    · show (({ c2AfterFirstMint c with invalidCalls := [c2DupMintEntry r c]
        } : ConsolidatorState).dbAdapter.store.collections.filter
          (fun d => d.id == c.id)).length = 1
      simp [c2AfterFirstMint]
    · rfl
  · intro r n col hty hparse hcol hval
    have hne : ¬ (OP_TYPES.MINTNFT = OP_TYPES.MINT) := by decide
    have hstep1 : Consolidator.stepState (c2InitNFT col) r =
        c2AfterFirstMintNFT r n col := by
      unfold Consolidator.stepState Consolidator.dispatch
      rw [hty, if_neg hne, if_pos rfl, c2_mintNFT_first r n col hparse hcol hval]
    have hstep2 : Consolidator.stepState (c2AfterFirstMintNFT r n col) r =
        { c2AfterFirstMintNFT r n col with
          invalidCalls := [c2DupMintNFTEntry r n] } := by
      unfold Consolidator.stepState Consolidator.dispatch
      rw [hty, if_neg hne, if_pos rfl, c2_mintNFT_second r n col hparse]
    rw [consolidateLoop_cons, consolidateLoop_cons, hstep1, hstep2]
    constructor
    · show (({ c2AfterFirstMintNFT r n col with
        invalidCalls := [c2DupMintNFTEntry r n]
        } : ConsolidatorState).dbAdapter.store.nfts.filter
          (fun m => m.id == n.getId)).length = 1
      simp [c2AfterFirstMintNFT, NFTConsolidated.getId]
    · rfl

/-- A small collection whose generated id passes the (inverted) MINT
id validation, for the duplicate-mint witness. -/
def c2Collection : CollectionConsolidated :=
  { block := 3, name := "dup", max := 0, issuer := c1PK, symbol := "SYM",
    id := Collection.generateId c1PK "SYM", metadata := "", changes := [],
    updatedAtBlock := none }

/-- A MINT remark for that collection, replayed twice in the witness. -/
def c2Remark : Remark :=
  { block := 3, caller := c1PK, interaction_type := OP_TYPES.MINT,
    remark := .collectionPayload c2Collection }

/-- A first item of that collection: serial number 1, minted by the
collection's issuer. -/
def c2NFT : NFTConsolidated :=
  { id := "4-01234567-SYM-89abcdef-NFT-0000000001", block := 4,
    collection := c2Collection.id, name := "first item", nftInstance := "NFT",
    transferable := 1, sn := "0000000001", metadata := none, data := none,
    forsale := 0, reactions := [], changes := [], owner := c1PK, burned := "",
    updatedAtBlock := none }

/-- A MINTNFT remark for that item, replayed twice in the witness. -/
def c2NFTRemark : Remark :=
  { block := 4, caller := c1PK, interaction_type := OP_TYPES.MINTNFT,
    remark := .nftPayload c2NFT }

theorem c2_witness :
    (((Consolidator.consolidateLoop (Consolidator.construct none none none none)
        [c2Remark, c2Remark]).dbAdapter.store.collections.filter
          (fun d => d.id == c2Collection.id)).length = 1 ∧
      (Consolidator.consolidateLoop (Consolidator.construct none none none none)
        [c2Remark, c2Remark]).invalidCalls =
          [c2DupMintEntry c2Remark c2Collection]) ∧
    (((Consolidator.consolidateLoop (c2InitNFT c2Collection)
        [c2NFTRemark, c2NFTRemark]).dbAdapter.store.nfts.filter
          (fun m => m.id == c2NFT.getId)).length = 1 ∧
      (Consolidator.consolidateLoop (c2InitNFT c2Collection)
        [c2NFTRemark, c2NFTRemark]).invalidCalls =
          [c2DupMintNFTEntry c2NFTRemark c2NFT]) :=
  ⟨c2_duplicate_mint_rejected.1 c2Remark c2Collection rfl rfl rfl,
   c2_duplicate_mint_rejected.2 c2NFTRemark c2NFT c2Collection rfl rfl rfl rfl⟩

end Rmrk
